import Mathlib

/-
Shallow embedding of the portainer-agent charm's reconciliation logic
(src/src/charm.py) and proofs about it.

Modelling conventions:
- Python dicts holding configuration are association lists `Config`;
  `cget` is `dict.get` (first binding wins), `mergeConfig old new` is the
  Python merge `{ **old, **new }` (keys of `new` take precedence).
- Configuration values are `CVal` (string / int / bool), mirroring the
  typed values the charm config schema delivers; a key that is absent
  yields `none` from `cget`, exactly as `dict.get` yields `None`.
- Remote Kubernetes API calls are modelled by their outcome `ApiResult`
  (success value or an HTTP status code); a raised `ApiException`
  propagating out of a handler is `Except.error (Err.api status)`, and a
  Python `KeyError` from a direct `config[k]` index is `Err.keyError`.
- Mutating remote calls and pebble operations are recorded as `Action` /
  `K8sCall` values so that theorems can speak about which remote
  mutations a pass performs.
-/

namespace Portainer

/-- A configuration value: the charm's config schema delivers strings,
integers and booleans. -/
inductive CVal where
  | s (v : String)
  | i (v : Int)
  | b (v : Bool)
deriving DecidableEq, Repr

/-- A configuration mapping, as the charm's Python dict. -/
abbrev Config := List (String × CVal)

/-- Python `dict.get(k)`: the value bound to `k`, or `none` when absent. -/
def cget (c : Config) (k : String) : Option CVal :=
  (c.find? (fun p => p.1 == k)).map Prod.snd

/-- Python `{ **stored, **incoming }`: keys of `incoming` win
(charm.py line 148). -/
def mergeConfig (stored incoming : Config) : Config :=
  incoming ++ stored

/-- Python truthiness of a configuration value (`if config[k]:`). -/
def cvalTruthy : CVal → Bool
  | .s v => v != ""
  | .i v => v != 0
  | .b v => v

/-- Python truthiness of `dict.get(k)` (`if not config.get(k):`),
where `None` is falsy. -/
def optTruthy : Option CVal → Bool
  | none => false
  | some v => cvalTruthy v

/-- charm.py line 21. -/
def SERVICETYPE_LB : String := "LoadBalancer"

/-- charm.py line 22. -/
def SERVICETYPE_CIP : String := "ClusterIP"

/-- charm.py line 23. -/
def SERVICETYPE_NP : String := "NodePort"

/-- charm.py line 24. -/
def CONFIG_SERVICETYPE : String := "service_type"

/-- charm.py line 25. -/
def CONFIG_SERVICEHTTPPORT : String := "service_http_port"

/-- charm.py line 26. -/
def CONFIG_SERVICEHTTPNODEPORT : String := "service_http_node_port"

/-- charm.py line 27. -/
def CONFIG_EDGE : String := "edge"

/-- charm.py line 28. -/
def CONFIG_EDGE_ID : String := "edge_id"

/-- charm.py line 29. -/
def CONFIG_EDGE_KEY : String := "edge_key"

/-- Embeds `_has_config_change` (charm.py lines 293-298): compares the values of
`keys` between the stored config (`self._config`) and the target config,
returning true as soon as one differs. -/
def has_config_change (stored target : Config) (keys : List String) : Bool :=
  keys.any (fun k => cget stored k != cget target k)

/-- Membership test of `config.get(CONFIG_SERVICETYPE)` in the tuple
`(SERVICETYPE_CIP, SERVICETYPE_LB, SERVICETYPE_NP)` (charm.py line 303). -/
def recognized_service_type (v : Option CVal) : Bool :=
  v == some (CVal.s SERVICETYPE_CIP) || v == some (CVal.s SERVICETYPE_LB) ||
    v == some (CVal.s SERVICETYPE_NP)

/-- Embeds `_validate_config` (charm.py lines 300-313). -/
def validate_config (config : Config) : Bool :=
  if !(optTruthy (cget config CONFIG_EDGE)) then
    if !(recognized_service_type (cget config CONFIG_SERVICETYPE)) then false
    else if (cget config CONFIG_SERVICEHTTPPORT).isNone then false
    else true
  else
    if (cget config CONFIG_EDGE_ID).isNone || (cget config CONFIG_EDGE_KEY).isNone then false
    else true

/-- Embeds `_default_config` (charm.py lines 329-347). -/
def default_config : Config :=
  [(CONFIG_SERVICETYPE, CVal.s SERVICETYPE_LB),
   (CONFIG_SERVICEHTTPPORT, CVal.i 9001),
   (CONFIG_SERVICEHTTPNODEPORT, CVal.i 30778),
   (CONFIG_EDGE, CVal.b false),
   (CONFIG_EDGE_ID, CVal.s ""),
   (CONFIG_EDGE_KEY, CVal.s "")]

/-- Outcome of one remote Kubernetes API call: a success value, or the
HTTP status carried by the raised `ApiException`. -/
inductive ApiResult (α : Type) where
  | ok (v : α)
  | err (status : Nat)
deriving DecidableEq, Repr

/-- Errors that propagate out of a handler: a re-raised `ApiException`
with its status, or a Python `KeyError` from a direct dict index. -/
inductive Err where
  | api (status : Nat)
  | keyError
deriving DecidableEq, Repr

/-- Embeds `_k8s_auth` (charm.py lines 349-365): the permission-probe list call;
a 403 returns `false` (blocked), success returns `true`, any other
`ApiException` is re-raised. -/
def k8s_auth (listRes : ApiResult Unit) : Except Err Bool :=
  match listRes with
  | .ok _ => Except.ok true
  | .err status => if status = 403 then Except.ok false else Except.error (Err.api status)

/-- The selector `{ "app.kubernetes.io/name": app.name }`
(charm.py lines 91-93 and 125-127). -/
def app_selector (appName : String) : List (String × String) :=
  [("app.kubernetes.io/name", appName)]

/-- Embeds `V1ServicePort` as the builder populates it (charm.py lines 111-118):
`node_port` stays unset unless assigned. -/
structure V1ServicePort where
  name : String
  port : CVal
  target_port : Int
  node_port : Option CVal := none
deriving DecidableEq, Repr

/-- Embeds `V1ServiceSpec` restricted to the fields the builder populates
(charm.py lines 120-132): `cluster_ip` stays unset unless assigned. -/
structure V1ServiceSpec where
  type : CVal
  ports : List V1ServicePort
  selector : List (String × String)
  cluster_ip : Option String := none
deriving DecidableEq, Repr

/-- Embeds `_build_k8s_spec_by_config` (charm.py lines 108-135). Direct dict
indexes (`config[k]`) make the result `none` when a required key is
absent (Python `KeyError`). -/
def build_k8s_spec_by_config (appName : String) (config : Config) : Option V1ServiceSpec :=
  match cget config CONFIG_SERVICETYPE, cget config CONFIG_SERVICEHTTPPORT with
  | some service_type, some portVal =>
    let http_port : V1ServicePort := { name := "http", port := portVal, target_port := 9001 }
    let http_port :=
      if service_type == CVal.s SERVICETYPE_NP
          && (cget config CONFIG_SERVICEHTTPNODEPORT).isSome then
        { http_port with node_port := cget config CONFIG_SERVICEHTTPNODEPORT }
      else http_port
    match cget config CONFIG_EDGE with
    | some edgeVal =>
      let result : V1ServiceSpec :=
        { type := service_type, ports := [http_port], selector := app_selector appName }
      some (if cvalTruthy edgeVal then
              { result with cluster_ip := some "None", type := CVal.s SERVICETYPE_CIP }
            else result)
    | none => none
  | _, _ => none

/-- Remote service CRUD calls issued by `_create_k8s_service`. -/
inductive K8sCall where
  | deleteService (name : String)
  | createService (name : String)
deriving DecidableEq, Repr

/-- Embeds `_create_k8s_service` (charm.py lines 65-79): delete the service,
ignoring a 404 (prior absence), re-raising any other `ApiException`;
then create it. Returns the calls issued and the propagated status,
if any. -/
def create_k8s_service (deleteRes : ApiResult Unit) (name : String) :
    List K8sCall × Option Nat :=
  match deleteRes with
  | .ok _ => ([K8sCall.deleteService name, K8sCall.createService name], none)
  | .err status =>
    if status = 404 then ([K8sCall.deleteService name, K8sCall.createService name], none)
    else ([K8sCall.deleteService name], some status)

/-- A JSON-like value as produced by the kubernetes client's
`sanitize_for_serialization`: unset optional model fields serialize as an
explicit null marker (see the code's own comment at charm.py
lines 174-177). -/
inductive JVal where
  | null
  | str (s : String)
  | int (n : Int)
  | bool (b : Bool)
  | arr (xs : List JVal)
  | obj (fields : List (String × JVal))

/-- Test for the null marker. -/
def jIsNull : JVal → Bool
  | .null => true
  | _ => false

/-- Serialization of a configuration value. -/
def jOfCVal : CVal → JVal
  | .s v => JVal.str v
  | .i v => JVal.int v
  | .b v => JVal.bool v

/-- Serialization of an optional configuration value: absent serializes
as the null marker. -/
def jOfOptCVal : Option CVal → JVal
  | none => JVal.null
  | some v => jOfCVal v

/-- Serialization of an optional string: absent serializes as the null
marker. -/
def jOfOptString : Option String → JVal
  | none => JVal.null
  | some s => JVal.str s

/-- Serialization of one `V1ServicePort`. -/
def sanitizePort (p : V1ServicePort) : JVal :=
  JVal.obj [("name", JVal.str p.name), ("nodePort", jOfOptCVal p.node_port),
            ("port", jOfCVal p.port), ("targetPort", JVal.int p.target_port)]

/-- Embeds `client.sanitize_for_serialization` applied to the built spec
(charm.py lines 185-187): every field of the spec object appears, unset
optional fields as the null marker; `externalIPs` and `externalName` are
the representative always-unset fields the code's comment names
(charm.py lines 175-176). -/
def sanitize_spec (s : V1ServiceSpec) : List (String × JVal) :=
  [("clusterIP", jOfOptString s.cluster_ip),
   ("externalIPs", JVal.null),
   ("externalName", JVal.null),
   ("ports", JVal.arr (s.ports.map sanitizePort)),
   ("selector", JVal.obj (s.selector.map (fun kv => (kv.1, JVal.str kv.2)))),
   ("type", jOfCVal s.type)]

/-- Modelled from the spec: `utils.clean_nones`, called at charm.py
line 185 — `src/utils.py` is not among the sources. The spec describes it
as a pure serialization filter: any field that would serialize as an
explicit absence/null must be dropped from the delta before the per-field
replace operations are emitted. -/
def clean_nones (d : List (String × JVal)) : List (String × JVal) :=
  d.filter (fun p => !(jIsNull p.2))

/-- One JSON-patch operation as built at charm.py lines 189-194. -/
structure PatchOp where
  op : String
  path : String
  value : JVal

/-- The patch body built at charm.py lines 188-194: one replace operation
per surviving top-level spec field. -/
def patch_body_of_spec (spec : List (String × JVal)) : List PatchOp :=
  spec.map (fun p => { op := "replace", path := "/spec/" ++ p.1, value := p.2 })

/-- Remote mutations and pebble operations a config-changed pass can
perform. -/
inductive Action where
  | patchService
  | stopService
  | addLayer
  | startService
deriving DecidableEq, Repr

/-- Embeds `_patch_k8s_service_by_config` (charm.py lines 178-204): build the
spec, serialize it, drop null fields, emit one replace operation per
surviving field; if the body is empty, skip the remote patch call.
`patchRes` is the outcome of the remote patch call when it is made. -/
def patch_k8s_service_by_config (patchRes : ApiResult Unit) (appName : String)
    (cfg : Config) : Except Err (List Action) :=
  match build_k8s_spec_by_config appName cfg with
  | none => Except.error Err.keyError
  | some spec =>
    let body := patch_body_of_spec (clean_nones (sanitize_spec spec))
    if body.isEmpty then Except.ok []
    else
      match patchRes with
      | .ok _ => Except.ok [Action.patchService]
      | .err status => Except.error (Err.api status)

/-- The pebble service entry of the layer returned by
`_build_layer_by_config` (charm.py lines 260-276). Environment values
are optional because `AGENT_CLUSTER_ADDR` / `KUBERNETES_POD_IP` are the
Python `None` when discovery has not succeeded yet. -/
structure PebbleService where
  override : String
  command : String
  startup : String
  environment : List (String × Option CVal)
deriving DecidableEq, Repr

/-- Lookup of a key in an environment mapping: `none` when the key is
absent, `some v` when present with value `v` (which is itself `none`
for a null value). -/
def envLookup (env : List (String × Option CVal)) (k : String) : Option (Option CVal) :=
  (env.find? (fun p => p.1 == k)).map Prod.snd

/-- The layer's service entry as charm.py lines 260-276 build it. -/
def agent_layer (pod_ip cluster_ip : Option String)
    (portVal edgeVal edgeId edgeKeyV : CVal) : PebbleService :=
  { override := "replace", command := "./agent", startup := "enabled",
    environment := [
      ("AGENT_PORT", some portVal),
      ("AGENT_CLUSTER_ADDR", cluster_ip.map CVal.s),
      ("KUBERNETES_POD_IP", pod_ip.map CVal.s),
      ("EDGE", some (CVal.s (if cvalTruthy edgeVal then "1" else "0"))),
      ("EDGE_ID", some edgeId),
      ("EDGE_KEY", some edgeKeyV)] }

/-- One best-effort discovery lookup (the try/except blocks at charm.py
lines 235-246 and 248-259): success yields the address, a 404 yields no
address plus a waiting-status message, any other `ApiException`
re-raises. -/
def discover (res : ApiResult String) (waitMsg : String) :
    Except Err (Option String × List String) :=
  match res with
  | .ok ip => Except.ok (some ip, [])
  | .err status =>
    if status = 404 then Except.ok (none, [waitMsg]) else Except.error (Err.api status)

/-- Embeds `_build_layer_by_config` (charm.py lines 227-276): auth probe (result
ignored, but a non-403 `ApiException` propagates), best-effort pod and
service discovery, then the layer; direct dict indexes raise `KeyError`
when a key is absent. Returns the service entry of the layer and the
waiting-status messages set along the way. -/
def build_layer_by_config (authRes : ApiResult Unit) (podRes svcRes : ApiResult String)
    (config : Config) : Except Err (PebbleService × List String) :=
  match k8s_auth authRes with
  | Except.error e => Except.error e
  | Except.ok _ =>
    match discover podRes "waiting for pod to start" with
    | Except.error e => Except.error e
    | Except.ok (pod_ip, st1) =>
      match discover svcRes "waiting for service to start" with
      | Except.error e => Except.error e
      | Except.ok (cluster_ip, st2) =>
        match cget config CONFIG_SERVICEHTTPPORT, cget config CONFIG_EDGE,
              cget config CONFIG_EDGE_ID, cget config CONFIG_EDGE_KEY with
        | some portVal, some edgeVal, some edgeId, some edgeKeyV =>
          Except.ok (agent_layer pod_ip cluster_ip portVal edgeVal edgeId edgeKeyV,
                     st1 ++ st2)
        | _, _, _, _ => Except.error Err.keyError

/-- Outcomes of the external collaborators during one config-changed
pass: the auth probe, the remote patch call, the pebble container
(`can_connect`, whether the service is already running), and the two
discovery lookups. -/
structure WorldInput where
  authRes : ApiResult Unit
  patchRes : ApiResult Unit
  canConnect : Bool
  svcRunning : Bool
  podRes : ApiResult String
  svcIpRes : ApiResult String

/-- Embeds `_update_pebble` (charm.py lines 206-225): when the container is
reachable, stop the running service if any, add the rebuilt layer and
start; otherwise set a waiting status and defer (returning normally to
the caller). Returns the pebble operations performed and whether the
event was deferred. -/
def update_pebble (w : WorldInput) (cfg : Config) : Except Err (List Action × Bool) :=
  if w.canConnect then
    match build_layer_by_config w.authRes w.podRes w.svcIpRes cfg with
    | Except.error e => Except.error e
    | Except.ok _ =>
      let pre := if w.svcRunning then [Action.stopService] else []
      Except.ok (pre ++ [Action.addLayer, Action.startService], false)
  else
    Except.ok ([], true)

/-- The service-relevant field set of charm.py line 149. -/
def service_change_keys : List String :=
  [CONFIG_SERVICEHTTPNODEPORT, CONFIG_SERVICETYPE, CONFIG_EDGE]

/-- The restart-relevant field set of charm.py line 157. -/
def pebble_change_keys : List String :=
  [CONFIG_EDGE, CONFIG_EDGE_ID, CONFIG_EDGE_KEY, CONFIG_SERVICEHTTPPORT]

/-- Result of one config-changed pass: the stored configuration after the
pass, the remote mutations and pebble operations performed, and whether
the event was deferred. -/
structure PassResult where
  stored : Config
  actions : List Action
  deferred : Bool
deriving DecidableEq, Repr

/-- The service-patch block of `_on_config_changed` (charm.py
lines 149-155): when a service-relevant field changed, probe auth
(deferring on 403, modelled as `Except.ok none`) and patch the service. -/
def service_patch_stage (w : WorldInput) (appName : String) (stored newConfig : Config) :
    Except Err (Option (List Action)) :=
  if has_config_change stored newConfig service_change_keys then
    match k8s_auth w.authRes with
    | Except.error e => Except.error e
    | Except.ok false => Except.ok none
    | Except.ok true =>
      match patch_k8s_service_by_config w.patchRes appName newConfig with
      | Except.error e => Except.error e
      | Except.ok acts => Except.ok (some acts)
  else Except.ok (some [])

/-- The pebble block of `_on_config_changed` (charm.py lines 156-158). -/
def pebble_stage (w : WorldInput) (stored newConfig : Config) :
    Except Err (List Action × Bool) :=
  if has_config_change stored newConfig pebble_change_keys then update_pebble w newConfig
  else Except.ok ([], false)

/-- Embeds `_on_config_changed` (charm.py lines 137-161): validate the incoming
config (deferring while keeping the stored config when invalid), merge it
over the stored config, run the service-patch block (deferring while
keeping the stored config when auth is not ready), run the pebble block,
then unconditionally commit the merged config — note that a defer raised
inside `_update_pebble` returns normally, so line 160 still commits. -/
def on_config_changed (w : WorldInput) (appName : String) (stored modelConfig : Config) :
    Except Err PassResult :=
  if validate_config modelConfig = false then
    Except.ok { stored := stored, actions := [], deferred := true }
  else
    match service_patch_stage w appName stored (mergeConfig stored modelConfig) with
    | Except.error e => Except.error e
    | Except.ok none => Except.ok { stored := stored, actions := [], deferred := true }
    | Except.ok (some acts1) =>
      match pebble_stage w stored (mergeConfig stored modelConfig) with
      | Except.error e => Except.error e
      | Except.ok (acts2, d2) =>
        Except.ok { stored := mergeConfig stored modelConfig,
                    actions := acts1 ++ acts2, deferred := d2 }

/-! ## Concrete inputs used by the closed theorems -/

/-- A candidate configuration with edge mode on and both edge credentials
present but empty. -/
def edge_empty_cred_config : Config :=
  [(CONFIG_EDGE, CVal.b true), (CONFIG_EDGE_ID, CVal.s ""), (CONFIG_EDGE_KEY, CVal.s "")]

/-- A configuration with `NodePort` type and a node-port value present,
edge mode off. -/
def np_config : Config :=
  [(CONFIG_SERVICETYPE, CVal.s SERVICETYPE_NP),
   (CONFIG_SERVICEHTTPPORT, CVal.i 9001),
   (CONFIG_SERVICEHTTPNODEPORT, CVal.i 31000),
   (CONFIG_EDGE, CVal.b false),
   (CONFIG_EDGE_ID, CVal.s ""),
   (CONFIG_EDGE_KEY, CVal.s "")]

/-- A configuration with edge mode on, `NodePort` type and a node-port
value present. -/
def edge_np_config : Config :=
  [(CONFIG_SERVICETYPE, CVal.s SERVICETYPE_NP),
   (CONFIG_SERVICEHTTPPORT, CVal.i 9001),
   (CONFIG_SERVICEHTTPNODEPORT, CVal.i 31000),
   (CONFIG_EDGE, CVal.b true),
   (CONFIG_EDGE_ID, CVal.s "id1"),
   (CONFIG_EDGE_KEY, CVal.s "key1")]

/-- The spec built from `np_config`. -/
def np_spec : V1ServiceSpec :=
  { type := CVal.s SERVICETYPE_NP,
    ports := [{ name := "http", port := CVal.i 9001, target_port := 9001,
                node_port := some (CVal.i 31000) }],
    selector := app_selector "portainer-agent",
    cluster_ip := none }

/-- The concrete layer built from `default_config` (edge disabled) with
both discovery lookups succeeding. -/
def disabled_edge_layer : PebbleService :=
  agent_layer (some "10.0.0.5") (some "10.1.1.1") (CVal.i 9001) (CVal.b false)
    (CVal.s "") (CVal.s "")

/-- The concrete layer built from `edge_np_config` (edge enabled) with
both discovery lookups succeeding. -/
def edge_enabled_layer : PebbleService :=
  agent_layer (some "10.0.0.5") (some "10.1.1.1") (CVal.i 9001) (CVal.b true)
    (CVal.s "id1") (CVal.s "key1")

/-- A world in which the supervisor container cannot be connected to,
while auth and the remote API are fine. -/
def no_container_world : WorldInput :=
  { authRes := ApiResult.ok (), patchRes := ApiResult.ok (), canConnect := false,
    svcRunning := false, podRes := ApiResult.ok "10.0.0.5",
    svcIpRes := ApiResult.ok "10.1.1.1" }

/-- A world in which the container is reachable and a pebble service is
already running. -/
def quiet_world : WorldInput :=
  { authRes := ApiResult.ok (), patchRes := ApiResult.ok (), canConnect := true,
    svcRunning := true, podRes := ApiResult.ok "10.0.0.5",
    svcIpRes := ApiResult.ok "10.1.1.1" }

/-- An incoming configuration identical to the default except for the
HTTP port — a restart-relevant field that is not service-relevant. -/
def changed_port_config : Config :=
  [(CONFIG_SERVICETYPE, CVal.s SERVICETYPE_LB),
   (CONFIG_SERVICEHTTPPORT, CVal.i 9002),
   (CONFIG_SERVICEHTTPNODEPORT, CVal.i 30778),
   (CONFIG_EDGE, CVal.b false),
   (CONFIG_EDGE_ID, CVal.s ""),
   (CONFIG_EDGE_KEY, CVal.s "")]

/-! ## Helper lemmas -/

/-- Lookup into a merged configuration: keys of the incoming overlay win,
otherwise the stored binding shows through. -/
theorem cget_mergeConfig (stored incoming : Config) (k : String) :
    cget (mergeConfig stored incoming) k =
      (cget incoming k).orElse (fun _ => cget stored k) := by
  unfold cget mergeConfig
  rw [List.find?_append]
  cases incoming.find? (fun p => p.1 == k) <;> simp [Option.orElse]

/-- Merging the same overlay a second time does not move any binding. -/
theorem cget_mergeConfig_idem (stored incoming : Config) (k : String) :
    cget (mergeConfig (mergeConfig stored incoming) incoming) k =
      cget (mergeConfig stored incoming) k := by
  rw [cget_mergeConfig, cget_mergeConfig]
  cases cget incoming k <;> simp [Option.orElse]

/-- When every key agrees between the two snapshots, the change detector
reports no change. -/
theorem has_config_change_of_agree (a b : Config) (keys : List String)
    (h : ∀ k, cget a k = cget b k) : has_config_change a b keys = false := by
  unfold has_config_change
  rw [List.any_eq_false]
  intro k _
  simp [h k]

/-! ## C4 — change detector -/

/-- C4: for every pair of configuration snapshots and every field set `F`,
`_has_config_change` returns true if and only if some field in `F`
differs by value equality between the two snapshots; since `cget` yields
`none` for an absent field and `some v` for a present one, a field absent
on one side is automatically distinct from every concrete value on the
other, so adding a field counts as a change. -/
theorem has_config_change_iff (old new : Config) (F : List String) :
    has_config_change old new F = true ↔ ∃ k ∈ F, cget old k ≠ cget new k := by
  unfold has_config_change
  rw [List.any_eq_true]
  constructor
  · rintro ⟨k, hk, hne⟩
    exact ⟨k, hk, by simpa using hne⟩
  · rintro ⟨k, hk, hne⟩
    exact ⟨k, hk, by simpa using hne⟩

/-! ## C3 — config validator -/

/-- C3 counterexample: the claim says `validate` returns false when edge
mode is on and either edge credential field is absent or empty; on the
concrete configuration whose credentials are present but empty strings,
`_validate_config` returns true (it only checks for `None`,
charm.py line 310), so the claim as stated is false. -/
theorem validate_config_accepts_empty_edge_creds :
    validate_config edge_empty_cred_config = true ∧
    optTruthy (cget edge_empty_cred_config CONFIG_EDGE) = true ∧
    cget edge_empty_cred_config CONFIG_EDGE_ID = some (CVal.s "") ∧
    cget edge_empty_cred_config CONFIG_EDGE_KEY = some (CVal.s "") := by
  refine ⟨rfl, rfl, rfl, rfl⟩

/-- C3 amended: `_validate_config` (a total function, hence it never
raises) returns false exactly when either (a) edge mode is off (falsy)
and the service type is not one of the three recognized values or the
HTTP port is absent, or (b) edge mode is on and either edge credential
field is absent (`None`) — a present-but-empty credential string is
accepted; in all other cases it returns true. -/
theorem validate_config_iff (config : Config) :
    validate_config config = false ↔
      (optTruthy (cget config CONFIG_EDGE) = false ∧
        (recognized_service_type (cget config CONFIG_SERVICETYPE) = false ∨
          cget config CONFIG_SERVICEHTTPPORT = none)) ∨
      (optTruthy (cget config CONFIG_EDGE) = true ∧
        (cget config CONFIG_EDGE_ID = none ∨ cget config CONFIG_EDGE_KEY = none)) := by
  unfold validate_config
  cases hE : optTruthy (cget config CONFIG_EDGE)
  · cases hT : recognized_service_type (cget config CONFIG_SERVICETYPE)
    · simp [hT]
    · cases hP : cget config CONFIG_SERVICEHTTPPORT <;> simp [hT, hP]
  · cases hI : cget config CONFIG_EDGE_ID <;>
      cases hK : cget config CONFIG_EDGE_KEY <;> simp [hI, hK]

/-! ## Spec builder: C6 and C10 -/

/-- Closed form of `_build_k8s_spec_by_config` when the three
unconditionally indexed keys are present (helper shared by the
spec-builder theorems). -/
theorem build_spec_eq (appName : String) (config : Config) (st portV edgeV : CVal)
    (hT : cget config CONFIG_SERVICETYPE = some st)
    (hP : cget config CONFIG_SERVICEHTTPPORT = some portV)
    (hE : cget config CONFIG_EDGE = some edgeV) :
    build_k8s_spec_by_config appName config =
      some { type := if cvalTruthy edgeV then CVal.s SERVICETYPE_CIP else st,
             ports := [{ name := "http", port := portV, target_port := 9001,
                         node_port :=
                           if st == CVal.s SERVICETYPE_NP
                               && (cget config CONFIG_SERVICEHTTPNODEPORT).isSome then
                             cget config CONFIG_SERVICEHTTPNODEPORT
                           else none }],
             selector := app_selector appName,
             cluster_ip := if cvalTruthy edgeV then some "None" else none } := by
  unfold build_k8s_spec_by_config
  rw [hT, hP, hE]
  cases hNP : st == CVal.s SERVICETYPE_NP
      && (cget config CONFIG_SERVICEHTTPNODEPORT).isSome <;>
    cases hEt : cvalTruthy edgeV <;> simp [hNP, hEt]

/-- C6: for every configuration (with the unconditionally indexed keys
present), the primary exposure spec takes the configured service type
verbatim, has a single HTTP port whose target port is the fixed 9001
regardless of the configured external port, carries a node-port on that
port entry only when the configured type is `NodePort` and a node-port
value is present, and, when edge mode is enabled, collapses to an
internal-only object (`cluster_ip = "None"`, type `ClusterIP`)
irrespective of the configured type. -/
theorem build_spec_by_config_characterization (appName : String) (config : Config)
    (st portV edgeV : CVal)
    (hT : cget config CONFIG_SERVICETYPE = some st)
    (hP : cget config CONFIG_SERVICEHTTPPORT = some portV)
    (hE : cget config CONFIG_EDGE = some edgeV) :
    build_k8s_spec_by_config appName config =
      some { type := if cvalTruthy edgeV then CVal.s SERVICETYPE_CIP else st,
             ports := [{ name := "http", port := portV, target_port := 9001,
                         node_port :=
                           if st == CVal.s SERVICETYPE_NP
                               && (cget config CONFIG_SERVICEHTTPNODEPORT).isSome then
                             cget config CONFIG_SERVICEHTTPNODEPORT
                           else none }],
             selector := app_selector appName,
             cluster_ip := if cvalTruthy edgeV then some "None" else none } :=
  build_spec_eq appName config st portV edgeV hT hP hE

/-- C6 witness: the builder evaluated on a concrete `NodePort`
configuration. -/
theorem build_spec_by_config_characterization_witness :
    build_k8s_spec_by_config "portainer-agent" np_config =
      some { type := CVal.s SERVICETYPE_NP,
             ports := [{ name := "http", port := CVal.i 9001, target_port := 9001,
                         node_port := some (CVal.i 31000) }],
             selector := app_selector "portainer-agent",
             cluster_ip := none } :=
  build_spec_by_config_characterization "portainer-agent" np_config
    (CVal.s SERVICETYPE_NP) (CVal.i 9001) (CVal.b false) rfl rfl rfl

/-- C10: when edge mode is enabled, the type is `NodePort` and a
node-port value is present, the built spec has type `ClusterIP` and the
headless marker `cluster_ip = "None"`, yet its single HTTP port entry
still carries the configured node-port value — the node-port is assigned
(charm.py lines 116-118) before the edge-mode collapse overrides the
type (charm.py lines 130-132). -/
theorem edge_nodeport_spec_collapse (appName : String) (config : Config)
    (portV edgeV npV : CVal)
    (hT : cget config CONFIG_SERVICETYPE = some (CVal.s SERVICETYPE_NP))
    (hP : cget config CONFIG_SERVICEHTTPPORT = some portV)
    (hE : cget config CONFIG_EDGE = some edgeV)
    (hEt : cvalTruthy edgeV = true)
    (hNP : cget config CONFIG_SERVICEHTTPNODEPORT = some npV) :
    build_k8s_spec_by_config appName config =
      some { type := CVal.s SERVICETYPE_CIP,
             ports := [{ name := "http", port := portV, target_port := 9001,
                         node_port := some npV }],
             selector := app_selector appName,
             cluster_ip := some "None" } := by
  rw [build_spec_eq appName config (CVal.s SERVICETYPE_NP) portV edgeV hT hP hE]
  simp [hEt, hNP]

/-- C10 witness: the builder evaluated on a concrete edge-plus-node-port
configuration. -/
theorem edge_nodeport_spec_collapse_witness :
    build_k8s_spec_by_config "portainer-agent" edge_np_config =
      some { type := CVal.s SERVICETYPE_CIP,
             ports := [{ name := "http", port := CVal.i 9001, target_port := 9001,
                         node_port := some (CVal.i 31000) }],
             selector := app_selector "portainer-agent",
             cluster_ip := some "None" } :=
  edge_nodeport_spec_collapse "portainer-agent" edge_np_config
    (CVal.i 9001) (CVal.b true) (CVal.i 31000) rfl rfl rfl rfl rfl

/-! ## C8 — delete-then-create -/

/-- C8: every create of a service first issues a delete and then a
create; a 404 on the delete is tolerated (prior absence) and the create
still happens, so re-running is safe; any other status on the delete
propagates to the caller and the create is not performed. -/
theorem create_service_delete_then_create (deleteRes : ApiResult Unit) (name : String) :
    (∀ u : Unit, deleteRes = ApiResult.ok u →
      create_k8s_service deleteRes name =
        ([K8sCall.deleteService name, K8sCall.createService name], none)) ∧
    (deleteRes = ApiResult.err 404 →
      create_k8s_service deleteRes name =
        ([K8sCall.deleteService name, K8sCall.createService name], none)) ∧
    (∀ status : Nat, status ≠ 404 → deleteRes = ApiResult.err status →
      create_k8s_service deleteRes name =
        ([K8sCall.deleteService name], some status)) := by
  refine ⟨?_, ?_, ?_⟩
  · rintro u rfl
    rfl
  · rintro rfl
    rfl
  · rintro status hne rfl
    simp [create_k8s_service, hne]

/-- C8 witness: a 404 delete is tolerated (delete then create, no error),
while a 500 delete propagates and skips the create. -/
theorem create_service_delete_then_create_witness :
    create_k8s_service (ApiResult.err 404) "portainer-agent" =
      ([K8sCall.deleteService "portainer-agent", K8sCall.createService "portainer-agent"],
        none) ∧
    create_k8s_service (ApiResult.err 500) "portainer-agent" =
      ([K8sCall.deleteService "portainer-agent"], some 500) :=
  ⟨(create_service_delete_then_create (ApiResult.err 404) "portainer-agent").2.1 rfl,
   (create_service_delete_then_create (ApiResult.err 500) "portainer-agent").2.2
     500 (by decide) rfl⟩

/-! ## C7 — patch document never carries null values -/

/-- C7: for every configuration whose spec builds, the patch document
contains no replace operation whose value is the null marker (every
null-serializing field is dropped by `clean_nones` before the per-field
replace operations are emitted), and when the resulting operation list
is empty no remote patch call is made (`_patch_k8s_service_by_config`
returns without touching the API). -/
theorem patch_ops_never_null (patchRes : ApiResult Unit) (appName : String)
    (cfg : Config) (spec : V1ServiceSpec)
    (hb : build_k8s_spec_by_config appName cfg = some spec) :
    (∀ op ∈ patch_body_of_spec (clean_nones (sanitize_spec spec)),
      op.value ≠ JVal.null) ∧
    (patch_body_of_spec (clean_nones (sanitize_spec spec)) = [] →
      patch_k8s_service_by_config patchRes appName cfg = Except.ok []) := by
  constructor
  · intro op hop
    unfold patch_body_of_spec at hop
    rw [List.mem_map] at hop
    obtain ⟨p, hp, rfl⟩ := hop
    unfold clean_nones at hp
    rw [List.mem_filter] at hp
    have hnn : jIsNull p.2 = false := by simpa using hp.2
    intro hnull
    have hv : p.2 = JVal.null := hnull
    rw [hv] at hnn
    simp [jIsNull] at hnn
  · intro hempty
    unfold patch_k8s_service_by_config
    rw [hb]
    simp [hempty]

/-- C7 witness: the patch-document property evaluated on the concrete
`NodePort` configuration. -/
theorem patch_ops_never_null_witness :
    (∀ op ∈ patch_body_of_spec (clean_nones (sanitize_spec np_spec)),
      op.value ≠ JVal.null) ∧
    (patch_body_of_spec (clean_nones (sanitize_spec np_spec)) = [] →
      patch_k8s_service_by_config (ApiResult.ok ()) "portainer-agent" np_config =
        Except.ok []) :=
  patch_ops_never_null (ApiResult.ok ()) "portainer-agent" np_config np_spec rfl

/-! ## Descriptor builder: C2 and C5 -/

/-- Closed form of `_build_layer_by_config` when every collaborator call
completes (helper shared by the descriptor theorems). -/
theorem build_layer_eq (authRes : ApiResult Unit) (podRes svcRes : ApiResult String)
    (config : Config) (b : Bool) (pod_ip cluster_ip : Option String)
    (st1 st2 : List String) (portVal edgeVal edgeId edgeKeyV : CVal)
    (hauth : k8s_auth authRes = Except.ok b)
    (hpod : discover podRes "waiting for pod to start" = Except.ok (pod_ip, st1))
    (hsvc : discover svcRes "waiting for service to start" = Except.ok (cluster_ip, st2))
    (hP : cget config CONFIG_SERVICEHTTPPORT = some portVal)
    (hE : cget config CONFIG_EDGE = some edgeVal)
    (hI : cget config CONFIG_EDGE_ID = some edgeId)
    (hK : cget config CONFIG_EDGE_KEY = some edgeKeyV) :
    build_layer_by_config authRes podRes svcRes config =
      Except.ok (agent_layer pod_ip cluster_ip portVal edgeVal edgeId edgeKeyV,
                 st1 ++ st2) := by
  unfold build_layer_by_config
  rw [hauth, hpod, hsvc, hP, hE, hI, hK]

/-- Inversion of a successful `_build_layer_by_config` run (helper). -/
theorem build_layer_ok_inv (authRes : ApiResult Unit) (podRes svcRes : ApiResult String)
    (config : Config) (layer : PebbleService) (sts : List String)
    (hok : build_layer_by_config authRes podRes svcRes config = Except.ok (layer, sts)) :
    ∃ pod_ip cluster_ip st1 st2 portVal edgeVal edgeId edgeKeyV,
      discover podRes "waiting for pod to start" = Except.ok (pod_ip, st1) ∧
      discover svcRes "waiting for service to start" = Except.ok (cluster_ip, st2) ∧
      cget config CONFIG_SERVICEHTTPPORT = some portVal ∧
      cget config CONFIG_EDGE = some edgeVal ∧
      cget config CONFIG_EDGE_ID = some edgeId ∧
      cget config CONFIG_EDGE_KEY = some edgeKeyV ∧
      layer = agent_layer pod_ip cluster_ip portVal edgeVal edgeId edgeKeyV ∧
      sts = st1 ++ st2 := by
  unfold build_layer_by_config at hok
  split at hok
  · cases hok
  · split at hok
    · cases hok
    · rename_i pod_ip st1 hpodq
      split at hok
      · cases hok
      · rename_i cluster_ip st2 hsvcq
        split at hok
        · rename_i portVal edgeVal edgeId edgeKeyV hPq hEq hIq hKq
          rw [Except.ok.injEq, Prod.mk.injEq] at hok
          exact ⟨pod_ip, cluster_ip, st1, st2, portVal, edgeVal, edgeId, edgeKeyV,
            hpodq, hsvcq, hPq, hEq, hIq, hKq, hok.1.symm, hok.2.symm⟩
        · cases hok

/-- C2 counterexample: on the default configuration, where edge mode is
disabled, the descriptor's environment still contains the keys `EDGE`
(with value "0"), `EDGE_ID` and `EDGE_KEY` (with empty values) — they are
emitted unconditionally at charm.py lines 270-272 — so the claim that
these keys are absent when edge mode is disabled is false. -/
theorem build_layer_edge_keys_present_when_disabled :
    build_layer_by_config (ApiResult.ok ()) (ApiResult.ok "10.0.0.5")
        (ApiResult.ok "10.1.1.1") default_config =
      Except.ok (disabled_edge_layer, []) ∧
    envLookup disabled_edge_layer.environment "EDGE" = some (some (CVal.s "0")) ∧
    envLookup disabled_edge_layer.environment "EDGE_ID" = some (some (CVal.s "")) ∧
    envLookup disabled_edge_layer.environment "EDGE_KEY" = some (some (CVal.s "")) ∧
    optTruthy (cget default_config CONFIG_EDGE) = false :=
  ⟨rfl, rfl, rfl, rfl, rfl⟩

/-- C2 amended: the environment of every descriptor the builder produces
contains the keys `EDGE`, `EDGE_ID` and `EDGE_KEY` regardless of whether
edge mode is enabled: `EDGE` carries "1" when edge mode is enabled and
"0" otherwise, and `EDGE_ID` / `EDGE_KEY` carry the configured values
verbatim. -/
theorem build_layer_edge_env_always_present (authRes : ApiResult Unit)
    (podRes svcRes : ApiResult String) (config : Config)
    (layer : PebbleService) (sts : List String) (edgeVal edgeId edgeKeyV : CVal)
    (hE : cget config CONFIG_EDGE = some edgeVal)
    (hI : cget config CONFIG_EDGE_ID = some edgeId)
    (hK : cget config CONFIG_EDGE_KEY = some edgeKeyV)
    (hok : build_layer_by_config authRes podRes svcRes config = Except.ok (layer, sts)) :
    envLookup layer.environment "EDGE" =
      some (some (CVal.s (if cvalTruthy edgeVal then "1" else "0"))) ∧
    envLookup layer.environment "EDGE_ID" = some (some edgeId) ∧
    envLookup layer.environment "EDGE_KEY" = some (some edgeKeyV) := by
  obtain ⟨pod_ip, cluster_ip, st1, st2, portVal, edgeVal', edgeId', edgeKeyV',
    hpd, hsv, hPq, hEq, hIq, hKq, hl, hs⟩ :=
    build_layer_ok_inv authRes podRes svcRes config layer sts hok
  rw [hE] at hEq
  rw [hI] at hIq
  rw [hK] at hKq
  cases hEq
  cases hIq
  cases hKq
  subst hl
  exact ⟨rfl, rfl, rfl⟩

/-- C2 witness: the amended property evaluated on a concrete edge-enabled
configuration. -/
theorem build_layer_edge_env_always_present_witness :
    envLookup edge_enabled_layer.environment "EDGE" = some (some (CVal.s "1")) ∧
    envLookup edge_enabled_layer.environment "EDGE_ID" = some (some (CVal.s "id1")) ∧
    envLookup edge_enabled_layer.environment "EDGE_KEY" = some (some (CVal.s "key1")) :=
  build_layer_edge_env_always_present (ApiResult.ok ()) (ApiResult.ok "10.0.0.5")
    (ApiResult.ok "10.1.1.1") edge_np_config edge_enabled_layer []
    (CVal.b true) (CVal.s "id1") (CVal.s "key1") rfl rfl rfl rfl

/-- C5: discovery is independently best-effort. Whenever the service
lookup returns 404 (and the pod lookup completes without raising), the
builder raises no exception and the environment's `AGENT_CLUSTER_ADDR`
maps to the null marker (no address value is set), with the
waiting-status message recorded; symmetrically for the pod lookup and
`KUBERNETES_POD_IP`. -/
theorem build_layer_discovery_not_found_best_effort (authRes : ApiResult Unit)
    (podRes svcRes : ApiResult String) (config : Config) (b : Bool)
    (portVal edgeVal edgeId edgeKeyV : CVal)
    (hauth : k8s_auth authRes = Except.ok b)
    (hP : cget config CONFIG_SERVICEHTTPPORT = some portVal)
    (hE : cget config CONFIG_EDGE = some edgeVal)
    (hI : cget config CONFIG_EDGE_ID = some edgeId)
    (hK : cget config CONFIG_EDGE_KEY = some edgeKeyV) :
    (∀ pod_ip st1,
      discover podRes "waiting for pod to start" = Except.ok (pod_ip, st1) →
      svcRes = ApiResult.err 404 →
      build_layer_by_config authRes podRes svcRes config =
        Except.ok (agent_layer pod_ip none portVal edgeVal edgeId edgeKeyV,
                   st1 ++ ["waiting for service to start"]) ∧
      envLookup (agent_layer pod_ip none portVal edgeVal edgeId edgeKeyV).environment
        "AGENT_CLUSTER_ADDR" = some none ∧
      "waiting for service to start" ∈ st1 ++ ["waiting for service to start"]) ∧
    (∀ cluster_ip st2,
      discover svcRes "waiting for service to start" = Except.ok (cluster_ip, st2) →
      podRes = ApiResult.err 404 →
      build_layer_by_config authRes podRes svcRes config =
        Except.ok (agent_layer none cluster_ip portVal edgeVal edgeId edgeKeyV,
                   "waiting for pod to start" :: st2) ∧
      envLookup (agent_layer none cluster_ip portVal edgeVal edgeId edgeKeyV).environment
        "KUBERNETES_POD_IP" = some none ∧
      "waiting for pod to start" ∈ ("waiting for pod to start" :: st2)) := by
  constructor
  · rintro pod_ip st1 hpd rfl
    have hsv : discover (ApiResult.err 404) "waiting for service to start" =
        Except.ok (none, ["waiting for service to start"]) := rfl
    exact ⟨build_layer_eq authRes podRes (ApiResult.err 404) config b pod_ip none st1
      ["waiting for service to start"] portVal edgeVal edgeId edgeKeyV
      hauth hpd hsv hP hE hI hK, rfl, by simp⟩
  · rintro cluster_ip st2 hsv rfl
    have hpd : discover (ApiResult.err 404) "waiting for pod to start" =
        Except.ok (none, ["waiting for pod to start"]) := rfl
    exact ⟨build_layer_eq authRes (ApiResult.err 404) svcRes config b none cluster_ip
      ["waiting for pod to start"] st2 portVal edgeVal edgeId edgeKeyV
      hauth hpd hsv hP hE hI hK, rfl, by simp⟩

/-- C5 witness: a concrete run in which the service lookup returns 404
and a concrete run in which the pod lookup returns 404, both on the
default configuration. -/
theorem build_layer_discovery_not_found_best_effort_witness :
    (build_layer_by_config (ApiResult.ok ()) (ApiResult.ok "10.0.0.5") (ApiResult.err 404)
        default_config =
      Except.ok (agent_layer (some "10.0.0.5") none (CVal.i 9001) (CVal.b false)
                   (CVal.s "") (CVal.s ""), ["waiting for service to start"]) ∧
      envLookup (agent_layer (some "10.0.0.5") none (CVal.i 9001) (CVal.b false)
          (CVal.s "") (CVal.s "")).environment "AGENT_CLUSTER_ADDR" = some none ∧
      "waiting for service to start" ∈ ["waiting for service to start"]) ∧
    (build_layer_by_config (ApiResult.ok ()) (ApiResult.err 404) (ApiResult.ok "10.1.1.1")
        default_config =
      Except.ok (agent_layer none (some "10.1.1.1") (CVal.i 9001) (CVal.b false)
                   (CVal.s "") (CVal.s ""), ["waiting for pod to start"]) ∧
      envLookup (agent_layer none (some "10.1.1.1") (CVal.i 9001) (CVal.b false)
          (CVal.s "") (CVal.s "")).environment "KUBERNETES_POD_IP" = some none ∧
      "waiting for pod to start" ∈ ["waiting for pod to start"]) :=
  ⟨(build_layer_discovery_not_found_best_effort (ApiResult.ok ()) (ApiResult.ok "10.0.0.5")
      (ApiResult.err 404) default_config true (CVal.i 9001) (CVal.b false)
      (CVal.s "") (CVal.s "") rfl rfl rfl rfl rfl).1 (some "10.0.0.5") [] rfl rfl,
   (build_layer_discovery_not_found_best_effort (ApiResult.ok ()) (ApiResult.err 404)
      (ApiResult.ok "10.1.1.1") default_config true (CVal.i 9001) (CVal.b false)
      (CVal.s "") (CVal.s "") rfl rfl rfl rfl rfl).2 (some "10.1.1.1") [] rfl rfl⟩

/-! ## Orchestrator: C1 and C9 -/

/-- C1: a config-changed pass in which a restart-relevant field (the
HTTP port) changed and the supervisor container cannot be connected to
ends deferred, yet the merged configuration IS committed: the stored
configuration after the pass is the merged one, which differs from the
stored configuration before the pass. `_update_pebble` defers the event
but returns normally (charm.py lines 222-225), so `_on_config_changed`
still reaches the commit at line 160; the deferred re-delivery then
detects no field change and never reinstalls the pending layer. -/
theorem config_changed_commits_despite_pebble_defer :
    on_config_changed no_container_world "portainer-agent" default_config
        changed_port_config =
      Except.ok { stored := mergeConfig default_config changed_port_config,
                  actions := [], deferred := true } ∧
    cget (mergeConfig default_config changed_port_config) CONFIG_SERVICEHTTPPORT ≠
      cget default_config CONFIG_SERVICEHTTPPORT := by
  refine ⟨rfl, by decide⟩

/-- Inversion of a config-changed pass that returned without deferring
(helper): validation passed and the merged configuration was committed. -/
theorem on_config_changed_ok_inv (w : WorldInput) (appName : String)
    (stored modelConfig : Config) (r : PassResult)
    (h : on_config_changed w appName stored modelConfig = Except.ok r)
    (hd : r.deferred = false) :
    validate_config modelConfig = true ∧
    r.stored = mergeConfig stored modelConfig := by
  unfold on_config_changed at h
  split at h
  · rw [Except.ok.injEq] at h
    rw [← h] at hd
    simp at hd
  · rename_i hv
    have hv' : validate_config modelConfig = true := by
      cases hvc : validate_config modelConfig
      · exact absurd hvc hv
      · rfl
    split at h
    · cases h
    · rw [Except.ok.injEq] at h
      rw [← h] at hd
      simp at hd
    · split at h
      · cases h
      · rw [Except.ok.injEq] at h
        exact ⟨hv', by rw [← h]⟩

/-- C9: if a config-changed pass completes without deferring, then
re-processing the same incoming configuration against the committed
result performs zero remote mutations — the second pass takes neither
the service-patch path nor the pebble-restart path (its action list is
empty) and completes without deferring. -/
theorem second_pass_no_remote_mutations (w1 w2 : WorldInput) (appName : String)
    (stored modelConfig : Config) (r1 : PassResult)
    (h1 : on_config_changed w1 appName stored modelConfig = Except.ok r1)
    (hd : r1.deferred = false) :
    on_config_changed w2 appName r1.stored modelConfig =
      Except.ok { stored := mergeConfig r1.stored modelConfig,
                  actions := [], deferred := false } := by
  obtain ⟨hv, hst⟩ := on_config_changed_ok_inv w1 appName stored modelConfig r1 h1 hd
  have hagree : ∀ k, cget r1.stored k = cget (mergeConfig r1.stored modelConfig) k := by
    intro k
    rw [hst]
    exact (cget_mergeConfig_idem stored modelConfig k).symm
  have hch1 : has_config_change r1.stored (mergeConfig r1.stored modelConfig)
      service_change_keys = false := has_config_change_of_agree _ _ _ hagree
  have hch2 : has_config_change r1.stored (mergeConfig r1.stored modelConfig)
      pebble_change_keys = false := has_config_change_of_agree _ _ _ hagree
  have hstage1 : service_patch_stage w2 appName r1.stored
      (mergeConfig r1.stored modelConfig) = Except.ok (some []) := by
    unfold service_patch_stage
    rw [hch1]
    simp
  have hstage2 : pebble_stage w2 r1.stored (mergeConfig r1.stored modelConfig) =
      Except.ok ([], false) := by
    unfold pebble_stage
    rw [hch2]
    simp
  unfold on_config_changed
  rw [hv, hstage1, hstage2]
  exact rfl

/-- C9 witness: a concrete first pass (HTTP port change, restart
performed, committed) followed by a second pass with the same incoming
configuration, which performs no action. -/
theorem second_pass_no_remote_mutations_witness :
    on_config_changed quiet_world "portainer-agent"
        (mergeConfig default_config changed_port_config) changed_port_config =
      Except.ok { stored := mergeConfig (mergeConfig default_config changed_port_config)
                    changed_port_config,
                  actions := [], deferred := false } := by
  have h1 : on_config_changed quiet_world "portainer-agent" default_config
      changed_port_config =
      Except.ok { stored := mergeConfig default_config changed_port_config,
                  actions := [Action.stopService, Action.addLayer, Action.startService],
                  deferred := false } := rfl
  exact second_pass_no_remote_mutations quiet_world quiet_world "portainer-agent"
    default_config changed_port_config _ h1 rfl

end Portainer
